import Mathlib

/-!
Verification of the KYC model-conversion scripts.

The repository holds two standalone Python scripts:

* `src/scripts/convert_blazeface.py` (Procedure A): ensures a TFLite detector
  file is present locally (downloading it with `curl` if absent) and then
  invokes `tf2onnx.convert` as a subprocess.
* `src/scripts/convert_minifasnet.py` (Procedure B): builds the MiniFASNetV2
  anti-spoofing network in memory with randomly initialised parameters and
  exports it through `torch.onnx.export`.

The development below is a shallow embedding of both scripts.  Tensor
computations are embedded at the level of shapes: each layer is a record of
its constructor hyperparameters, and applying a layer maps an input shape to
`some` output shape exactly when the corresponding PyTorch call succeeds, and
to `none` when PyTorch raises a shape-mismatch error.  The scripts' control
flow (presence check, subprocess calls, try/except blocks, exit codes) is
embedded as explicit state passing over a small environment record, producing
a trace of observable events (prints, subprocess runs, export calls).
-/

namespace KYC

/-- Shape of a rank-4 tensor `(N, C, H, W)`, the only tensor rank flowing
through `MiniFASNetV2.forward` before the final flatten. -/
structure TensorShape where
  batch : Nat
  channels : Nat
  height : Nat
  width : Nat
deriving DecidableEq, Repr

/-- Embedding of `torch.nn.Conv2d(in_channels, out_channels, kernel_size,
stride, padding, groups, bias)` at the level of its shape behaviour
(dilation is left at its default 1, as in the source). -/
structure Conv2d where
  in_channels : Nat
  out_channels : Nat
  kernelH : Nat
  kernelW : Nat
  stride : Nat
  padding : Nat
  groups : Nat
  bias : Bool
deriving DecidableEq, Repr

/-- Shape semantics of a `Conv2d` forward call: PyTorch requires the input
channel count to match `in_channels` and the padded spatial extent to cover
the kernel; the output spatial size is `(in + 2*pad - kernel) / stride + 1`
(floor division). `none` models the runtime error raised otherwise. -/
def Conv2d.apply (c : Conv2d) (s : TensorShape) : Option TensorShape :=
  if s.channels = c.in_channels ∧ c.kernelH ≤ s.height + 2 * c.padding ∧
      c.kernelW ≤ s.width + 2 * c.padding then
    some { batch := s.batch
           channels := c.out_channels
           height := (s.height + 2 * c.padding - c.kernelH) / c.stride + 1
           width := (s.width + 2 * c.padding - c.kernelW) / c.stride + 1 }
  else
    none

/-- Number of learnable parameters of a `Conv2d`: the weight tensor has shape
`(out_channels, in_channels / groups, kH, kW)`; every conv in the source is
constructed with `bias=False`. -/
def Conv2d.paramCount (c : Conv2d) : Nat :=
  c.out_channels * (c.in_channels / c.groups) * c.kernelH * c.kernelW +
    (if c.bias then c.out_channels else 0)

/-- Embedding of `torch.nn.BatchNorm2d(num_features)`. -/
structure BatchNorm2d where
  num_features : Nat
deriving DecidableEq, Repr

/-- Shape semantics of a `BatchNorm2d` forward call: the input channel count
must equal `num_features` (PyTorch raises otherwise); the shape is preserved. -/
def BatchNorm2d.apply (b : BatchNorm2d) (s : TensorShape) : Option TensorShape :=
  if s.channels = b.num_features then some s else none

/-- Embedding of `torch.nn.Linear(in_features, out_features)` with its default
`bias=True`; applied to a rank-2 tensor `(batch, features)`. -/
structure Linear where
  in_features : Nat
  out_features : Nat
  bias : Bool
deriving DecidableEq, Repr

/-- Shape semantics of a `Linear` forward call on a rank-2 input: the last
dimension must equal `in_features` (PyTorch raises a matmul shape error
otherwise). -/
def Linear.apply (l : Linear) (v : Nat × Nat) : Option (Nat × Nat) :=
  if v.2 = l.in_features then some (v.1, l.out_features) else none

/-- Number of learnable parameters of a `Linear` layer. -/
def Linear.paramCount (l : Linear) : Nat :=
  l.out_features * l.in_features + (if l.bias then l.out_features else 0)

/-- `torch.nn.ReLU(inplace=True)` is elementwise and preserves the shape. -/
def relu (s : TensorShape) : TensorShape := s

namespace ConvertMinifasnet

/-- Constructor arguments of `MiniFASNetV2.__init__` in
`src/scripts/convert_minifasnet.py`; every layer below is determined by these
two hyperparameters. -/
structure MiniFASNetV2 where
  embedding_size : Nat := 128
  conv6_kernel : Nat × Nat := (5, 5)
deriving DecidableEq, Repr

/-- `self.conv1 = Conv2d(3, 32, kernel_size=3, stride=2, padding=1, bias=False)` -/
def MiniFASNetV2.conv1 (_ : MiniFASNetV2) : Conv2d :=
  { in_channels := 3, out_channels := 32, kernelH := 3, kernelW := 3,
    stride := 2, padding := 1, groups := 1, bias := false }

/-- `self.bn1 = BatchNorm2d(32)` -/
def MiniFASNetV2.bn1 (_ : MiniFASNetV2) : BatchNorm2d := { num_features := 32 }

/-- `self.conv2_dw = Conv2d(32, 32, kernel_size=3, stride=1, padding=1, groups=32, bias=False)` -/
def MiniFASNetV2.conv2_dw (_ : MiniFASNetV2) : Conv2d :=
  { in_channels := 32, out_channels := 32, kernelH := 3, kernelW := 3,
    stride := 1, padding := 1, groups := 32, bias := false }

/-- `self.bn2_dw = BatchNorm2d(32)` -/
def MiniFASNetV2.bn2_dw (_ : MiniFASNetV2) : BatchNorm2d := { num_features := 32 }

/-- `self.conv2_sep = Conv2d(32, 64, kernel_size=1, stride=1, padding=0, bias=False)` -/
def MiniFASNetV2.conv2_sep (_ : MiniFASNetV2) : Conv2d :=
  { in_channels := 32, out_channels := 64, kernelH := 1, kernelW := 1,
    stride := 1, padding := 0, groups := 1, bias := false }

/-- `self.bn2_sep = BatchNorm2d(64)` -/
def MiniFASNetV2.bn2_sep (_ : MiniFASNetV2) : BatchNorm2d := { num_features := 64 }

/-- `self.conv3_dw = Conv2d(64, 64, kernel_size=3, stride=2, padding=1, groups=64, bias=False)` -/
def MiniFASNetV2.conv3_dw (_ : MiniFASNetV2) : Conv2d :=
  { in_channels := 64, out_channels := 64, kernelH := 3, kernelW := 3,
    stride := 2, padding := 1, groups := 64, bias := false }

/-- `self.bn3_dw = BatchNorm2d(64)` -/
def MiniFASNetV2.bn3_dw (_ : MiniFASNetV2) : BatchNorm2d := { num_features := 64 }

/-- `self.conv3_sep = Conv2d(64, 64, kernel_size=1, stride=1, padding=0, bias=False)` -/
def MiniFASNetV2.conv3_sep (_ : MiniFASNetV2) : Conv2d :=
  { in_channels := 64, out_channels := 64, kernelH := 1, kernelW := 1,
    stride := 1, padding := 0, groups := 1, bias := false }

/-- `self.bn3_sep = BatchNorm2d(64)` -/
def MiniFASNetV2.bn3_sep (_ : MiniFASNetV2) : BatchNorm2d := { num_features := 64 }

/-- `self.conv4_dw = Conv2d(64, 64, kernel_size=3, stride=1, padding=1, groups=64, bias=False)` -/
def MiniFASNetV2.conv4_dw (_ : MiniFASNetV2) : Conv2d :=
  { in_channels := 64, out_channels := 64, kernelH := 3, kernelW := 3,
    stride := 1, padding := 1, groups := 64, bias := false }

/-- `self.bn4_dw = BatchNorm2d(64)` -/
def MiniFASNetV2.bn4_dw (_ : MiniFASNetV2) : BatchNorm2d := { num_features := 64 }

/-- `self.conv4_sep = Conv2d(64, 128, kernel_size=1, stride=1, padding=0, bias=False)` -/
def MiniFASNetV2.conv4_sep (_ : MiniFASNetV2) : Conv2d :=
  { in_channels := 64, out_channels := 128, kernelH := 1, kernelW := 1,
    stride := 1, padding := 0, groups := 1, bias := false }

/-- `self.bn4_sep = BatchNorm2d(128)` -/
def MiniFASNetV2.bn4_sep (_ : MiniFASNetV2) : BatchNorm2d := { num_features := 128 }

/-- `self.conv5_dw = Conv2d(128, 128, kernel_size=3, stride=2, padding=1, groups=128, bias=False)` -/
def MiniFASNetV2.conv5_dw (_ : MiniFASNetV2) : Conv2d :=
  { in_channels := 128, out_channels := 128, kernelH := 3, kernelW := 3,
    stride := 2, padding := 1, groups := 128, bias := false }

/-- `self.bn5_dw = BatchNorm2d(128)` -/
def MiniFASNetV2.bn5_dw (_ : MiniFASNetV2) : BatchNorm2d := { num_features := 128 }

/-- `self.conv5_sep = Conv2d(128, 128, kernel_size=1, stride=1, padding=0, bias=False)` -/
def MiniFASNetV2.conv5_sep (_ : MiniFASNetV2) : Conv2d :=
  { in_channels := 128, out_channels := 128, kernelH := 1, kernelW := 1,
    stride := 1, padding := 0, groups := 1, bias := false }

/-- `self.bn5_sep = BatchNorm2d(128)` -/
def MiniFASNetV2.bn5_sep (_ : MiniFASNetV2) : BatchNorm2d := { num_features := 128 }

/-- `self.conv6_dw = Conv2d(128, 128, kernel_size=conv6_kernel, stride=1, padding=0, groups=128, bias=False)` -/
def MiniFASNetV2.conv6_dw (m : MiniFASNetV2) : Conv2d :=
  { in_channels := 128, out_channels := 128,
    kernelH := m.conv6_kernel.1, kernelW := m.conv6_kernel.2,
    stride := 1, padding := 0, groups := 128, bias := false }

/-- `self.bn6_dw = BatchNorm2d(128)` -/
def MiniFASNetV2.bn6_dw (_ : MiniFASNetV2) : BatchNorm2d := { num_features := 128 }

/-- `self.conv6_flatten = Conv2d(128, embedding_size, kernel_size=1, stride=1, padding=0, bias=False)` -/
def MiniFASNetV2.conv6_flatten (m : MiniFASNetV2) : Conv2d :=
  { in_channels := 128, out_channels := m.embedding_size, kernelH := 1,
    kernelW := 1, stride := 1, padding := 0, groups := 1, bias := false }

/-- `self.fc = Linear(embedding_size, 2)` (binary output: live / spoof). -/
def MiniFASNetV2.fc (m : MiniFASNetV2) : Linear :=
  { in_features := m.embedding_size, out_features := 2, bias := true }

/-- Shape semantics of one line of `MiniFASNetV2.forward` of the form
`x = self.relu(self.bn(self.conv(x)))`. -/
def convBnRelu (c : Conv2d) (b : BatchNorm2d) (s : TensorShape) :
    Option TensorShape :=
  ((c.apply s).bind b.apply).map relu

/-- Shape semantics of the body of `MiniFASNetV2.forward` from the first line
through `x = self.relu(self.bn5_sep(self.conv5_sep(x)))`, i.e. the shape of
the feature map that reaches `self.conv6_dw`.  Note the fourth block's
pointwise stage on line 59 of the source normalises with `bn5_sep`, not
`bn4_sep`. -/
def MiniFASNetV2.trunk (m : MiniFASNetV2) (x0 : TensorShape) : Option TensorShape :=
  ((((((((convBnRelu m.conv1 m.bn1 x0).bind
    (convBnRelu m.conv2_dw m.bn2_dw)).bind
    (convBnRelu m.conv2_sep m.bn2_sep)).bind
    (convBnRelu m.conv3_dw m.bn3_dw)).bind
    (convBnRelu m.conv3_sep m.bn3_sep)).bind
    (convBnRelu m.conv4_dw m.bn4_dw)).bind
    (convBnRelu m.conv4_sep m.bn5_sep)).bind
    (convBnRelu m.conv5_dw m.bn5_dw)).bind
    (convBnRelu m.conv5_sep m.bn5_sep)

/-- Shape of the feature map right after `self.conv6_dw(x)` in `forward`. -/
def MiniFASNetV2.afterConv6dw (m : MiniFASNetV2) (x0 : TensorShape) :
    Option TensorShape :=
  (m.trunk x0).bind m.conv6_dw.apply

/-- Shape of the rank-2 tensor produced by `x.view(x.size(0), -1)` in
`forward`, i.e. the input reaching `self.fc`: the line
`x = self.relu(self.bn6_dw(self.conv6_dw(x)))`, then `x = self.conv6_flatten(x)`,
then the flattening view. -/
def MiniFASNetV2.flattened (m : MiniFASNetV2) (x0 : TensorShape) :
    Option (Nat × Nat) :=
  ((((m.afterConv6dw x0).bind m.bn6_dw.apply).map relu).bind
    m.conv6_flatten.apply).map
    (fun x => (x.batch, x.channels * x.height * x.width))

/-- Shape semantics of the full `MiniFASNetV2.forward`: `some (N, 2)` when the
forward pass succeeds (ending in `x = self.fc(x)`), `none` when some layer
raises a shape error. -/
def MiniFASNetV2.forward (m : MiniFASNetV2) (x0 : TensorShape) :
    Option (Nat × Nat) :=
  (m.flattened x0).bind m.fc.apply

/-- The model constructed by `main`:
`MiniFASNetV2(conv6_kernel=(1, 1))  # For 80x80 input`. -/
def model : MiniFASNetV2 := { embedding_size := 128, conv6_kernel := (1, 1) }

/-- Tags naming the module attributes of `MiniFASNetV2`, used to record which
attribute each call in the body of `forward` goes through. -/
inductive LayerTag where
  | conv1 | bn1 | relu
  | conv2_dw | bn2_dw | conv2_sep | bn2_sep
  | conv3_dw | bn3_dw | conv3_sep | bn3_sep
  | conv4_dw | bn4_dw | conv4_sep | bn4_sep
  | conv5_dw | bn5_dw | conv5_sep | bn5_sep
  | conv6_dw | bn6_dw | conv6_flatten
  | view | fc
deriving DecidableEq, Repr

/-- The exact sequence of module-attribute calls performed by the body of
`MiniFASNetV2.forward` (lines 49-69 of `src/scripts/convert_minifasnet.py`),
innermost call first within each line.  Line 59 reads
`x = self.relu(self.bn5_sep(self.conv4_sep(x)))`: after `conv4_sep` the code
calls `bn5_sep`, not `bn4_sep`. -/
def forwardCalls : List LayerTag :=
  [LayerTag.conv1, LayerTag.bn1, LayerTag.relu,
   LayerTag.conv2_dw, LayerTag.bn2_dw, LayerTag.relu,
   LayerTag.conv2_sep, LayerTag.bn2_sep, LayerTag.relu,
   LayerTag.conv3_dw, LayerTag.bn3_dw, LayerTag.relu,
   LayerTag.conv3_sep, LayerTag.bn3_sep, LayerTag.relu,
   LayerTag.conv4_dw, LayerTag.bn4_dw, LayerTag.relu,
   LayerTag.conv4_sep, LayerTag.bn5_sep, LayerTag.relu,
   LayerTag.conv5_dw, LayerTag.bn5_dw, LayerTag.relu,
   LayerTag.conv5_sep, LayerTag.bn5_sep, LayerTag.relu,
   LayerTag.conv6_dw, LayerTag.bn6_dw, LayerTag.relu,
   LayerTag.conv6_flatten, LayerTag.view, LayerTag.fc]

end ConvertMinifasnet

/-- The exceptions observable at the scripts' top level:
`subprocess.CalledProcessError` (raised by `subprocess.run(..., check=True)`
on a non-zero exit), `KeyboardInterrupt`, and any other `Exception`, reduced
to its message. -/
inductive Exc where
  | calledProcessError (cmd : List String) (returncode : Nat)
  | keyboardInterrupt
  | exception (msg : String)
deriving DecidableEq, Repr

/-- Outcome of a call to a script's `main`: either a returned status code or
an exception propagating out of `main`. -/
inductive PyResult where
  | ret (code : Int)
  | raised (e : Exc)
deriving DecidableEq, Repr

/-- The `if __name__ == "__main__":` block, identical in both scripts:
`sys.exit(main())` inside `try`, with `except KeyboardInterrupt: sys.exit(1)`
and `except Exception: sys.exit(1)`.  Maps a `main` outcome to the process
exit code. -/
def scriptExit : PyResult → Int
  | PyResult.ret code => code
  | PyResult.raised Exc.keyboardInterrupt => 1
  | PyResult.raised _ => 1

/-- The banner string `"=" * 60` printed by both scripts. -/
def eqBanner : String := String.mk (List.replicate 60 '=')

/-- The message carried by `subprocess.CalledProcessError`, as interpolated
into the scripts' diagnostics via `f"  {e}"`. -/
def calledProcessErrorMsg (cmd : List String) (returncode : Nat) : String :=
  "Command " ++ toString cmd ++ " returned non-zero exit status " ++
    toString returncode ++ "."

namespace ConvertBlazeface

/-- `tflite_path = "blaze_face_short_range.tflite"` -/
def tflite_path : String := ("blaze_face_short_range.tflite")

/-- `onnx_path = "../public/models/onnx/blazeface.onnx"` -/
def onnx_path : String := ("../public/models/onnx/blazeface.onnx")

/-- The hardcoded download URL passed to `curl`. -/
def model_url : String :=
  ("https://storage.googleapis.com/mediapipe-models/face_detector/blaze_face_short_range/float16/1/blaze_face_short_range.tflite")

/-- The argument list of the download subprocess
(`subprocess.run(["curl", "-L", "-o", tflite_path, <url>], check=True)`). -/
def curl_cmd : List String := ["curl", "-L", "-o", tflite_path, model_url]

/-- The argument list of the conversion subprocess
(`subprocess.run(["python", "-m", "tf2onnx.convert", "--tflite", tflite_path,
"--output", onnx_path, "--opset", "13"], check=True)`). -/
def convert_cmd : List String :=
  ["python", "-m", "tf2onnx.convert", "--tflite", tflite_path,
   "--output", onnx_path, "--opset", "13"]

/-- The environment a run of `convert_blazeface.py` interacts with: whether
`os.path.exists(tflite_path)` holds at the presence check, and the exit
statuses the two subprocesses would report. -/
structure Env where
  tflite_exists : Bool
  curl_returncode : Nat
  convert_returncode : Nat
deriving DecidableEq, Repr

/-- Observable events of a run of `convert_blazeface.py`: a line printed to
stdout, or a subprocess invocation with its argument list. -/
inductive Event where
  | print (s : String)
  | run (cmd : List String)
deriving DecidableEq, Repr

/-- The subprocess invocations of a trace, in order. -/
def subprocessRuns : List Event → List (List String)
  | [] => []
  | Event.run cmd :: es => cmd :: subprocessRuns es
  | Event.print _ :: es => subprocessRuns es

/-- Step 2 of `main` (lines 36-56): print, run the `tf2onnx` subprocess
inside `try`, return `0` on success; a non-zero exit raises
`subprocess.CalledProcessError`, which the `except` clause catches before
printing a diagnostic and returning `1`. -/
def convertStep (env : Env) (tr : List Event) : PyResult × List Event :=
  let tr1 := tr ++ [Event.print ("Converting TFLite → ONNX..."),
                    Event.run convert_cmd]
  if env.convert_returncode = 0 then
    (PyResult.ret 0,
     tr1 ++ [Event.print (""), Event.print eqBanner,
             Event.print ("✓ SUCCESS: BlazeFace ONNX model created!"),
             Event.print ("  Location: " ++ onnx_path),
             Event.print eqBanner])
  else
    (PyResult.ret 1,
     tr1 ++ [Event.print (""), Event.print eqBanner,
             Event.print ("✗ ERROR: Conversion failed"),
             Event.print ("  " ++ calledProcessErrorMsg convert_cmd
               env.convert_returncode),
             Event.print eqBanner])

/-- `main` of `src/scripts/convert_blazeface.py`: banner prints, presence
check (download via `curl` when the TFLite file is absent — a non-zero `curl`
exit raises `CalledProcessError` out of `main`, uncaught), then the
conversion step.  Returns the outcome of `main` together with the trace of
observable events. -/
def main (env : Env) : PyResult × List Event :=
  let tr0 : List Event :=
    [Event.print eqBanner,
     Event.print ("BlazeFace TFLite → ONNX Converter"),
     Event.print eqBanner, Event.print (""),
     Event.print ("Input:  " ++ tflite_path),
     Event.print ("Output: " ++ onnx_path),
     Event.print ("")]
  if env.tflite_exists then
    convertStep env tr0
  else
    let tr1 := tr0 ++ [Event.print ("Downloading BlazeFace TFLite model..."),
                       Event.run curl_cmd]
    if env.curl_returncode = 0 then
      convertStep env (tr1 ++ [Event.print ("✓ Downloaded\n")])
    else
      (PyResult.raised (Exc.calledProcessError curl_cmd env.curl_returncode),
       tr1)

end ConvertBlazeface

namespace ConvertMinifasnet

/-- `output_path = "../public/models/onnx/minifasnet_v2.onnx"` -/
def output_path : String := ("../public/models/onnx/minifasnet_v2.onnx")

/-- The argument record of the `torch.onnx.export(...)` call in `main`
(lines 91-103 of `src/scripts/convert_minifasnet.py`): the model, the shape
of the traced dummy input, the destination path, the opset version, the
tensor names, and the dynamic-axes declaration. -/
structure ExportCall where
  model : MiniFASNetV2
  inputShape : TensorShape
  path : String
  opset_version : Nat
  input_names : List String
  output_names : List String
  dynamic_axes : List (String × List (Nat × String))
deriving DecidableEq, Repr

/-- The concrete export call `main` makes: the freshly constructed model, the
`torch.randn(1, 3, 80, 80)` dummy input, `output_path`, `opset_version=13`,
`input_names=['input']`, `output_names=['output']`, and
`dynamic_axes={'input': {0: 'batch_size'}, 'output': {0: 'batch_size'}}`. -/
def exportCall : ExportCall :=
  { model := model
    inputShape := { batch := 1, channels := 3, height := 80, width := 80 }
    path := output_path
    opset_version := 13
    input_names := ["input"]
    output_names := ["output"]
    dynamic_axes := [("input", [(0, "batch_size")]),
                     ("output", [(0, "batch_size")])] }

/-- Observable events of a run of `convert_minifasnet.py`: a printed line or
the `torch.onnx.export` invocation. -/
inductive Event where
  | print (s : String)
  | exportONNX (c : ExportCall)
deriving DecidableEq, Repr

/-- `main` of `src/scripts/convert_minifasnet.py`: banner prints, model
construction, dummy input, then `torch.onnx.export` inside `try`.
`exportError` is the outcome of the export call (`some msg` when it raises an
`Exception` with message `msg`, as the real run does per the `forward` shape
analysis above): on `none` the success banner is printed and `0` returned; on
`some msg` the `except Exception` clause prints the diagnostic and returns
`1`. -/
def main (exportError : Option String) : PyResult × List Event :=
  let tr0 : List Event :=
    [Event.print eqBanner,
     Event.print ("MiniFASNetV2 PyTorch → ONNX Converter"),
     Event.print eqBanner, Event.print (""),
     Event.print ("Creating MiniFASNetV2 model..."),
     Event.print ("✓ Model created\n"),
     Event.print ("Exporting to ONNX..."),
     Event.exportONNX exportCall]
  match exportError with
  | none =>
      (PyResult.ret 0,
       tr0 ++ [Event.print (""), Event.print eqBanner,
               Event.print ("✓ SUCCESS: MiniFASNetV2 ONNX model created!"),
               Event.print ("  Location: " ++ output_path),
               Event.print (""),
               Event.print ("⚠️  NOTE: This is the model ARCHITECTURE only."),
               Event.print ("   For production, download pretrained weights from:"),
               Event.print ("   https://github.com/minivision-ai/Silent-Face-Anti-Spoofing"),
               Event.print eqBanner])
  | some msg =>
      (PyResult.ret 1,
       tr0 ++ [Event.print (""), Event.print eqBanner,
               Event.print ("✗ ERROR: Export failed - " ++ msg),
               Event.print eqBanner])

/-- Number of randomly initialised learnable parameters of the model: PyTorch
draws the `Conv2d` and `Linear` parameters from its global RNG at
construction (kaiming-uniform), while the `BatchNorm2d` affine parameters are
deterministic constants (weight 1, bias 0).  The script seeds nothing. -/
def MiniFASNetV2.randomParamCount (m : MiniFASNetV2) : Nat :=
  m.conv1.paramCount + m.conv2_dw.paramCount + m.conv2_sep.paramCount +
    m.conv3_dw.paramCount + m.conv3_sep.paramCount + m.conv4_dw.paramCount +
    m.conv4_sep.paramCount + m.conv5_dw.paramCount + m.conv5_sep.paramCount +
    m.conv6_dw.paramCount + m.conv6_flatten.paramCount + m.fc.paramCount

/-- The randomly initialised parameter values that `torch.onnx.export`
serialises into the artifact, with torch's global RNG modelled abstractly as
a stream `rng` of successive draws (the script never seeds or restores the
RNG state, so `rng` is an input of the run). -/
def serializedWeights (m : MiniFASNetV2) (rng : Nat → Int) : List Int :=
  (List.range m.randomParamCount).map rng

/-- The values of `dummy_input = torch.randn(1, 3, 80, 80)`: the next
`1*3*80*80` draws of the global RNG after model construction. -/
def dummyInputValues (m : MiniFASNetV2) (rng : Nat → Int) : List Int :=
  (List.range (1 * 3 * 80 * 80)).map (fun i => rng (m.randomParamCount + i))

end ConvertMinifasnet

/-! ## Helper lemmas -/

namespace ConvertBlazeface

/-- The subprocess invocations a run of `convert_blazeface.py` performs, as a
function of its environment. -/
theorem main_runs (env : Env) :
    subprocessRuns (main env).2 =
      if env.tflite_exists then [convert_cmd]
      else if env.curl_returncode = 0 then [curl_cmd, convert_cmd]
      else [curl_cmd] := by
  obtain ⟨te, cr, vr⟩ := env
  cases te <;> by_cases hcr : cr = 0 <;> by_cases hvr : vr = 0 <;>
    simp [main, convertStep, subprocessRuns, hcr, hvr]

/-- The outcome of `main` of `convert_blazeface.py`, as a function of its
environment. -/
theorem main_fst (env : Env) :
    (main env).1 =
      if env.tflite_exists = false ∧ env.curl_returncode ≠ 0 then
        PyResult.raised (Exc.calledProcessError curl_cmd env.curl_returncode)
      else if env.convert_returncode = 0 then PyResult.ret 0
      else PyResult.ret 1 := by
  obtain ⟨te, cr, vr⟩ := env
  cases te <;> by_cases hcr : cr = 0 <;> by_cases hvr : vr = 0 <;>
    simp [main, convertStep, hcr, hvr]

/-- When the conversion subprocess is reached and exits non-zero, the
diagnostic line is printed. -/
theorem main_fail_print (env : Env)
    (h1 : env.tflite_exists = true ∨ env.curl_returncode = 0)
    (h2 : env.convert_returncode ≠ 0) :
    Event.print ("✗ ERROR: Conversion failed") ∈ (main env).2 := by
  obtain ⟨te, cr, vr⟩ := env
  cases te <;> by_cases hcr : cr = 0 <;>
    simp_all [main, convertStep]

end ConvertBlazeface

/-- Lists built by mapping two functions over the same nonempty range differ
whenever the functions differ at `0`. -/
theorem map_range_head_ne {f g : Nat → Int} {n : Nat} (hn : 0 < n)
    (h : f 0 ≠ g 0) : (List.range n).map f ≠ (List.range n).map g := by
  intro he
  apply h
  have h0 : ((List.range n).map f)[0]? = ((List.range n).map g)[0]? := by
    rw [he]
  rcases n with _ | n
  · exact absurd hn (by simp)
  · simpa [List.range_succ_eq_map] using h0

/-! ## Claim theorems -/

/-- C1: the spec asserts that the Procedure B model
(`MiniFASNetV2(conv6_kernel=(1, 1))`, `embedding_size=128`) maps an input of
shape `(1, 3, 80, 80)` to an output of shape `(1, 2)` without raising.  The
code violates this: the flattened tensor reaching `self.fc` has `12800`
features while `fc` expects `128`, so the forward pass raises a shape error
(`forward` returns `none`). -/
theorem C1_forward_raises_at_fc :
    ConvertMinifasnet.model.forward
        { batch := 1, channels := 3, height := 80, width := 80 } = none ∧
    ConvertMinifasnet.model.flattened
        { batch := 1, channels := 3, height := 80, width := 80 } =
      some (1, 12800) ∧
    ConvertMinifasnet.model.fc.in_features = 128 := by
  exact ⟨by decide, by decide, rfl⟩

/-- C2: the spec asserts the final depthwise convolution covers the full
remaining spatial extent, reducing the map to `1×1`.  The code violates this:
the map reaching `conv6_dw` is `10×10` while `conv6_kernel` is `(1, 1)`, so
the map after `conv6_dw` is still `10×10`. -/
theorem C2_conv6_map_not_1x1 :
    ConvertMinifasnet.model.trunk
        { batch := 1, channels := 3, height := 80, width := 80 } =
      some { batch := 1, channels := 128, height := 10, width := 10 } ∧
    ConvertMinifasnet.model.afterConv6dw
        { batch := 1, channels := 3, height := 80, width := 80 } =
      some { batch := 1, channels := 128, height := 10, width := 10 } ∧
    ConvertMinifasnet.model.conv6_kernel = (1, 1) := by
  exact ⟨by decide, by decide, rfl⟩

/-- C3: in `MiniFASNetV2.forward` the normalisation following `conv4_sep` is
`bn5_sep` (not `bn4_sep`); `bn5_sep` is applied twice per forward pass and
`bn4_sep` never. -/
theorem C3_bn5_sep_twice_bn4_sep_never :
    (∃ pre post, ConvertMinifasnet.forwardCalls =
        pre ++ ConvertMinifasnet.LayerTag.conv4_sep ::
          ConvertMinifasnet.LayerTag.bn5_sep :: post) ∧
    ConvertMinifasnet.forwardCalls.count ConvertMinifasnet.LayerTag.bn5_sep = 2 ∧
    ConvertMinifasnet.forwardCalls.count ConvertMinifasnet.LayerTag.bn4_sep = 0 := by
  refine ⟨⟨[ConvertMinifasnet.LayerTag.conv1, ConvertMinifasnet.LayerTag.bn1,
    ConvertMinifasnet.LayerTag.relu, ConvertMinifasnet.LayerTag.conv2_dw,
    ConvertMinifasnet.LayerTag.bn2_dw, ConvertMinifasnet.LayerTag.relu,
    ConvertMinifasnet.LayerTag.conv2_sep, ConvertMinifasnet.LayerTag.bn2_sep,
    ConvertMinifasnet.LayerTag.relu, ConvertMinifasnet.LayerTag.conv3_dw,
    ConvertMinifasnet.LayerTag.bn3_dw, ConvertMinifasnet.LayerTag.relu,
    ConvertMinifasnet.LayerTag.conv3_sep, ConvertMinifasnet.LayerTag.bn3_sep,
    ConvertMinifasnet.LayerTag.relu, ConvertMinifasnet.LayerTag.conv4_dw,
    ConvertMinifasnet.LayerTag.bn4_dw, ConvertMinifasnet.LayerTag.relu],
    [ConvertMinifasnet.LayerTag.relu, ConvertMinifasnet.LayerTag.conv5_dw,
     ConvertMinifasnet.LayerTag.bn5_dw, ConvertMinifasnet.LayerTag.relu,
     ConvertMinifasnet.LayerTag.conv5_sep, ConvertMinifasnet.LayerTag.bn5_sep,
     ConvertMinifasnet.LayerTag.relu, ConvertMinifasnet.LayerTag.conv6_dw,
     ConvertMinifasnet.LayerTag.bn6_dw, ConvertMinifasnet.LayerTag.relu,
     ConvertMinifasnet.LayerTag.conv6_flatten, ConvertMinifasnet.LayerTag.view,
     ConvertMinifasnet.LayerTag.fc], by decide⟩, by decide, by decide⟩

/-- C4: `main` of Procedure A invokes the conversion subprocess with exactly
the fixed input path, output path and opset 13; whenever that subprocess
exits non-zero, the `CalledProcessError` is caught inside `main`, the
diagnostic is printed, and `main` returns `1` without raising. -/
theorem C4_convert_cmd_and_graceful_failure (env : ConvertBlazeface.Env)
    (h : env.tflite_exists = true ∨ env.curl_returncode = 0) :
    (ConvertBlazeface.subprocessRuns
        (ConvertBlazeface.main env).2).count ConvertBlazeface.convert_cmd = 1 ∧
    ConvertBlazeface.convert_cmd =
      ["python", "-m", "tf2onnx.convert", "--tflite",
       ConvertBlazeface.tflite_path, "--output", ConvertBlazeface.onnx_path,
       "--opset", "13"] ∧
    (env.convert_returncode ≠ 0 →
      (ConvertBlazeface.main env).1 = PyResult.ret 1 ∧
      ConvertBlazeface.Event.print ("✗ ERROR: Conversion failed") ∈
        (ConvertBlazeface.main env).2) := by
  refine ⟨?_, rfl, fun hv => ⟨?_, ConvertBlazeface.main_fail_print env h hv⟩⟩
  · rw [ConvertBlazeface.main_runs]
    rcases h with h | h
    · rw [h, if_pos rfl]
      decide
    · rcases hte : env.tflite_exists with _ | _ <;> simp [h]
      decide
  · rw [ConvertBlazeface.main_fst]
    rcases h with h | h <;> simp [h, hv]

/-- C4 witness: with the input file present and the converter exiting `2`,
the conversion command is run once and `main` returns `1`. -/
theorem C4_witness :
    (ConvertBlazeface.subprocessRuns
        (ConvertBlazeface.main ⟨true, 0, 2⟩).2).count
      ConvertBlazeface.convert_cmd = 1 ∧
    (ConvertBlazeface.main ⟨true, 0, 2⟩).1 = PyResult.ret 1 :=
  ⟨(C4_convert_cmd_and_graceful_failure ⟨true, 0, 2⟩ (Or.inl rfl)).1,
   ((C4_convert_cmd_and_graceful_failure ⟨true, 0, 2⟩ (Or.inl rfl)).2.2
     (by decide)).1⟩

/-- C5: if the input file exists, no fetch is performed; if it does not,
exactly one fetch is performed and it precedes any conversion (it is the
first subprocess invocation of the run). -/
theorem C5_fetch_count (env : ConvertBlazeface.Env) :
    (env.tflite_exists = true →
      (ConvertBlazeface.subprocessRuns
          (ConvertBlazeface.main env).2).count ConvertBlazeface.curl_cmd = 0) ∧
    (env.tflite_exists = false →
      (ConvertBlazeface.subprocessRuns
          (ConvertBlazeface.main env).2).count ConvertBlazeface.curl_cmd = 1 ∧
      (ConvertBlazeface.subprocessRuns
          (ConvertBlazeface.main env).2).head? =
        some ConvertBlazeface.curl_cmd) := by
  rw [ConvertBlazeface.main_runs]
  constructor
  · intro h
    rw [h, if_pos rfl]
    decide
  · intro h
    rw [h]
    by_cases hcr : env.curl_returncode = 0 <;> simp [hcr]
    decide

/-- C5 witness: concrete environments on both sides of the presence check. -/
theorem C5_witness :
    (ConvertBlazeface.subprocessRuns
        (ConvertBlazeface.main ⟨true, 0, 0⟩).2).count
      ConvertBlazeface.curl_cmd = 0 ∧
    (ConvertBlazeface.subprocessRuns
        (ConvertBlazeface.main ⟨false, 0, 0⟩).2).count
      ConvertBlazeface.curl_cmd = 1 :=
  ⟨(C5_fetch_count ⟨true, 0, 0⟩).1 rfl,
   ((C5_fetch_count ⟨false, 0, 0⟩).2 rfl).1⟩

/-- C6: with the input file absent and the fetch exiting non-zero, the
`CalledProcessError` escapes `main` uncaught, the process exits with code 1,
and the conversion subprocess is never invoked. -/
theorem C6_fetch_failure_fatal (env : ConvertBlazeface.Env)
    (h1 : env.tflite_exists = false) (h2 : env.curl_returncode ≠ 0) :
    (ConvertBlazeface.main env).1 =
      PyResult.raised
        (Exc.calledProcessError ConvertBlazeface.curl_cmd
          env.curl_returncode) ∧
    scriptExit (ConvertBlazeface.main env).1 = 1 ∧
    (ConvertBlazeface.subprocessRuns
        (ConvertBlazeface.main env).2).count ConvertBlazeface.convert_cmd = 0 := by
  have hr := ConvertBlazeface.main_fst env
  rw [h1] at hr
  simp only [h2, ne_eq, not_false_iff, and_true, if_true] at hr
  refine ⟨hr, ?_, ?_⟩
  · rw [hr]
    rfl
  · rw [ConvertBlazeface.main_runs, h1]
    simp [h2]
    decide

/-- C6 witness: input absent, `curl` exits `23`. -/
theorem C6_witness :
    (ConvertBlazeface.main ⟨false, 23, 0⟩).1 =
      PyResult.raised
        (Exc.calledProcessError ConvertBlazeface.curl_cmd 23) ∧
    scriptExit (ConvertBlazeface.main ⟨false, 23, 0⟩).1 = 1 ∧
    (ConvertBlazeface.subprocessRuns
        (ConvertBlazeface.main ⟨false, 23, 0⟩).2).count
      ConvertBlazeface.convert_cmd = 0 :=
  C6_fetch_failure_fatal ⟨false, 23, 0⟩ rfl (by decide)

/-- C7: both scripts' process exit codes are only `0` and `1`: `0` exactly
when `main` returns success, `1` on conversion/export failure, `1` when any
exception escapes `main`, and `1` on `KeyboardInterrupt`. -/
theorem C7_exit_codes :
    (∀ env : ConvertBlazeface.Env,
      scriptExit (ConvertBlazeface.main env).1 =
        if (ConvertBlazeface.main env).1 = PyResult.ret 0 then 0 else 1) ∧
    (∀ r : Option String,
      scriptExit (ConvertMinifasnet.main r).1 = if r = none then 0 else 1) ∧
    (∀ e : Exc, scriptExit (PyResult.raised e) = 1) ∧
    scriptExit (PyResult.raised Exc.keyboardInterrupt) = 1 ∧
    (∀ env : ConvertBlazeface.Env,
      scriptExit (ConvertBlazeface.main env).1 = 0 ∨
        scriptExit (ConvertBlazeface.main env).1 = 1) := by
  have hmain : ∀ env : ConvertBlazeface.Env,
      scriptExit (ConvertBlazeface.main env).1 =
        if (ConvertBlazeface.main env).1 = PyResult.ret 0 then 0 else 1 := by
    intro env
    rw [ConvertBlazeface.main_fst]
    by_cases h1 : env.tflite_exists = false ∧ env.curl_returncode ≠ 0 <;>
      by_cases h2 : env.convert_returncode = 0 <;>
      simp [h1, h2, scriptExit]
  refine ⟨hmain, ?_, ?_, rfl, ?_⟩
  · intro r
    cases r <;> rfl
  · intro e
    cases e <;> rfl
  · intro env
    rw [hmain env]
    by_cases h : (ConvertBlazeface.main env).1 = PyResult.ret 0 <;> simp [h]

/-- C8: Procedure B calls `torch.onnx.export` with a dummy input of shape
`(1, 3, 80, 80)`, the fixed output path, opset 13, named input/output
tensors, and dynamic axes marking dimension 0 of both as variable-length. -/
theorem C8_export_call_arguments (r : Option String) :
    ConvertMinifasnet.Event.exportONNX ConvertMinifasnet.exportCall ∈
      (ConvertMinifasnet.main r).2 ∧
    ConvertMinifasnet.exportCall.model = ConvertMinifasnet.model ∧
    ConvertMinifasnet.exportCall.inputShape =
      { batch := 1, channels := 3, height := 80, width := 80 } ∧
    ConvertMinifasnet.exportCall.path = ConvertMinifasnet.output_path ∧
    ConvertMinifasnet.exportCall.opset_version = 13 ∧
    ConvertMinifasnet.exportCall.input_names = ["input"] ∧
    ConvertMinifasnet.exportCall.output_names = ["output"] ∧
    ConvertMinifasnet.exportCall.dynamic_axes =
      [("input", [(0, "batch_size")]), ("output", [(0, "batch_size")])] := by
  refine ⟨?_, rfl, rfl, rfl, rfl, rfl, rfl, rfl⟩
  cases r <;> simp [ConvertMinifasnet.main]

/-- C9: the misrouted normalisation is dimensionally safe: any tensor
produced by `conv4_sep` has 128 channels, and `bn5_sep` (a 128-feature
BatchNorm) accepts it unchanged. -/
theorem C9_bn5_sep_dimension_safe (s t : TensorShape)
    (h : ConvertMinifasnet.model.conv4_sep.apply s = some t) :
    t.channels = 128 ∧
      ConvertMinifasnet.model.bn5_sep.apply t = some t := by
  unfold Conv2d.apply at h
  split at h
  · injection h with h
    subst h
    exact ⟨rfl, rfl⟩
  · exact Option.noConfusion h

/-- C9 witness: the 20×20 map that reaches `conv4_sep` in the 80×80 run. -/
theorem C9_witness :
    (⟨1, 128, 20, 20⟩ : TensorShape).channels = 128 ∧
      ConvertMinifasnet.model.bn5_sep.apply ⟨1, 128, 20, 20⟩ =
        some ⟨1, 128, 20, 20⟩ :=
  C9_bn5_sep_dimension_safe ⟨1, 64, 20, 20⟩ ⟨1, 128, 20, 20⟩ (by decide)

/-- C10: the exported artifact is not a deterministic function of the
script's (empty) inputs: the serialised weight values and the dummy-input
values both depend on the global RNG state, and two runs with different RNG
states produce different values. -/
theorem C10_artifact_rng_dependent :
    ∃ r1 r2 : Nat → Int,
      ConvertMinifasnet.serializedWeights ConvertMinifasnet.model r1 ≠
        ConvertMinifasnet.serializedWeights ConvertMinifasnet.model r2 ∧
      ConvertMinifasnet.dummyInputValues ConvertMinifasnet.model r1 ≠
        ConvertMinifasnet.dummyInputValues ConvertMinifasnet.model r2 := by
  refine ⟨fun _ => 0, fun _ => 1, ?_, ?_⟩
  · exact map_range_head_ne (by decide) (by decide)
  · exact map_range_head_ne (by decide) (by decide)

end KYC
